import Mathlib

/-!
Verification development for the zowe-chat message matching and dispatch
pipeline (packages/chat/src/listeners/BotMessageListener.ts and the ChatBot
plugin loader).  The TypeScript core is shallowly embedded: listener
instances are identified by a numeric id whose behavior (matches / process)
is supplied by an environment of functions, exceptions are modelled with
Except, and the log / send side effects are modelled as event traces.
-/

namespace ZoweChat

/-! ## Data model (src/types: IChatPlugin, IChatListenerRegistryEntry, payloads) -/

/-- Listener kind, mirroring IChatListenerType (MESSAGE or EVENT). -/
inductive ListenerType where
  | MESSAGE
  | EVENT
deriving DecidableEq

/-- Plugin descriptor, mirroring IChatPlugin from the plugin manifest:
package id, declared listener names, registry source, version, priority. -/
structure ChatPlugin where
  pkg : String
  listenerNames : List String
  registry : String
  version : Nat
  priority : Int
deriving DecidableEq

/-- Registry entry, mirroring IChatListenerRegistryEntry.  The polymorphic
listenerInstance is identified by instId; its behavior is supplied by an
environment (MatchEnv / DispatchEnv). -/
structure ListenerEntry where
  listenerName : String
  listenerType : ListenerType
  instId : Nat
  chatPlugin : ChatPlugin
deriving DecidableEq

/-- Payload kind, mirroring IPayloadType. -/
inductive PayloadType where
  | MESSAGE
  | EVENT
deriving DecidableEq

/-- The extraData object stamped on each per-listener clone.  Clones are
taken from the inbound context before the match set is attached to it
(contexts are created fresh per message, so the cloned extraData carries no
prior listeners / contexts), hence only the chatPlugin field is live. -/
structure CloneExtra where
  chatPlugin : Option ChatPlugin
deriving DecidableEq

/-- A deep-cloned per-listener context produced by matchMessage (line 92). -/
structure CloneCtx where
  payloadType : PayloadType
  payloadData : String
  userName : String
  extra : Option CloneExtra
deriving DecidableEq

/-- The extraData object of the inbound context: an open record whose keys
used by this core are chatPlugin, listeners and contexts (absent keys are
modelled as none). -/
structure ExtraData where
  chatPlugin : Option ChatPlugin
  listeners : Option (List ListenerEntry)
  contexts : Option (List CloneCtx)
deriving DecidableEq

/-- Inbound chat context, mirroring IChatContextData as used by the core:
payload (type and textual data), the sending user, and extraData
(undefined and null both collapse to none). -/
structure ChatContextData where
  payloadType : PayloadType
  payloadData : String
  userName : String
  extraData : Option ExtraData
deriving DecidableEq

/-! ## Substring test (JS String.indexOf used at line 86) -/

/-- Boolean test that the first list starts the second. -/
def listStartsWith : List Char → List Char → Bool
  | [], _ => true
  | _ :: _, [] => false
  | a :: as, b :: bs => a = b && listStartsWith as bs

/-- Boolean test that the first list occurs inside the second. -/
def listHasSub : List Char → List Char → Bool
  | needle, [] => listStartsWith needle []
  | needle, b :: bs => listStartsWith needle (b :: bs) || listHasSub needle bs

/-- Substring containment: models payload.data.indexOf(needle) not being -1. -/
def strContains (hay needle : String) : Bool :=
  listHasSub needle.data hay.data

/-! ## Registry state (BotMessageListener fields and registerChatListener) -/

/-- The state of a BotMessageListener: the bot name and the chatListeners
registry (an append-only array). -/
structure BotState where
  botName : String
  chatListeners : List ListenerEntry
deriving DecidableEq

/-- registerChatListener (lines 55-66): unconditionally pushes the entry at
the end of the chatListeners array; there is no phase guard. -/
def registerChatListener (s : BotState) (e : ListenerEntry) : BotState :=
  { s with chatListeners := s.chatListeners ++ [e] }

/-! ## Matcher (matchMessage, lines 74-137) -/

/-- Behavior environment of the matcher: listenerInstance.matchMessage per
instId; a thrown exception is Except.error. -/
structure MatchEnv where
  matcher : Nat → CloneCtx → Except Unit Bool

/-- An environment whose matchers are pure predicates that never throw. -/
def pureMatchEnv (f : Nat → CloneCtx → Bool) : MatchEnv :=
  { matcher := fun i c => Except.ok (f i c) }

/-- The clone produced for one listener (lines 92-99): lodash cloneDeep of
the inbound context followed by stamping extraData.chatPlugin with the
listener's plugin (creating the extraData object when absent). -/
def mkClone (c : ChatContextData) (plugin : ChatPlugin) : CloneCtx :=
  { payloadType := c.payloadType
    payloadData := c.payloadData
    userName := c.userName
    extra := some { chatPlugin := some plugin } }

/-- The matching loop over chatListeners (lines 91-104).  Returns the trace
of consulted instIds together with either the matched (listeners, clones)
pair lists or the propagated exception. -/
def matchLoop (env : MatchEnv) (c : ChatContextData) :
    List ListenerEntry → List Nat × Except Unit (List ListenerEntry × List CloneCtx)
  | [] => ([], Except.ok ([], []))
  | l :: rest =>
    let clone := mkClone c l.chatPlugin
    match env.matcher l.instId clone with
    | Except.error e => ([l.instId], Except.error e)
    | Except.ok matched =>
      let (tr, r) := matchLoop env c rest
      (l.instId :: tr,
        match r with
        | Except.error e => Except.error e
        | Except.ok (ls, cs) =>
          Except.ok (if matched then (l :: ls, clone :: cs) else (ls, cs)))

/-- Attaching the match set to the inbound context (lines 110-118): creates
extraData when undefined, otherwise assigns its listeners and contexts keys. -/
def setMatchSet (c : ChatContextData) (ls : List ListenerEntry) (cs : List CloneCtx) :
    ChatContextData :=
  match c.extraData with
  | none => { c with extraData := some { chatPlugin := none, listeners := some ls, contexts := some cs } }
  | some e => { c with extraData := some { e with listeners := some ls, contexts := some cs } }

/-- Result of one matchMessage call: the returned value (none models the
undefined return that follows a caught exception), the possibly updated
inbound context, the instIds consulted, and whether log.error ran. -/
structure MatchOutcome where
  ret : Option Bool
  ctx : ChatContextData
  consulted : List Nat
  errorLogged : Bool
deriving DecidableEq

/-- matchMessage (lines 74-137).  Addressing check first (line 86): when
the payload text does not contain "@" ++ botName nothing is consulted and
extraData is untouched.  When addressed with a MESSAGE payload the loop
runs; an exception from a matcher is caught (line 129), logged, and the
partial match lists are lost.  When addressed with a non-MESSAGE payload an
error is logged and an empty match set is still attached (lines 105-118). -/
def matchMessage (env : MatchEnv) (s : BotState) (c : ChatContextData) : MatchOutcome :=
  if strContains c.payloadData ("@" ++ s.botName) = false then
    { ret := some false, ctx := c, consulted := [], errorLogged := false }
  else if c.payloadType = PayloadType.MESSAGE then
    match matchLoop env c s.chatListeners with
    | (tr, Except.error _) => { ret := none, ctx := c, consulted := tr, errorLogged := true }
    | (tr, Except.ok (ls, cs)) =>
      { ret := some (decide (0 < ls.length)), ctx := setMatchSet c ls cs,
        consulted := tr, errorLogged := false }
  else
    { ret := some false, ctx := setMatchSet c [] [], consulted := [], errorLogged := true }

/-! ## Dispatcher (processMessage, lines 140-202) -/

/-- Outbound message kind, mirroring IMessageType. -/
inductive MsgKind where
  | PLAIN_TEXT
  | OTHER
deriving DecidableEq

/-- Outbound message forwarded to bot.send. -/
structure OutMsg where
  message : String
  msgType : MsgKind
deriving DecidableEq

/-- Observable events of one processMessage call, in order: the login
prompt send of the unauthenticated branch (line 149), a listener process
invocation (line 186), a bot.send of its replies (line 190), a log.error of
a caught exception, and an uncaught TypeError escaping the async function
(possible only in the unauthenticated branch, which has no try block). -/
inductive DispatchEvent where
  | challengeSent (target : Option CloneCtx) (text : String)
  | processCalled (instId : Nat)
  | msgsSent (target : CloneCtx) (msgs : List OutMsg)
  | errorLogged
  | crashed
deriving DecidableEq

/-- Behavior environment of the dispatcher: the security facility, the
challenge generator of the webapp, the listener process implementations per
instId, the transport send, and the configured pluginLimit. -/
structure DispatchEnv where
  isAuthenticated : ChatContextData → Bool
  generateChallenge : String → String
  processor : Nat → CloneCtx → Except Unit (List OutMsg)
  send : CloneCtx → List OutMsg → Except Unit Unit
  pluginLimit : Int

/-- The reassigned pluginLimit (lines 178-180): pluginLimit is replaced by
matchedListeners.length when negative or larger than it. -/
def effectiveLimit (pluginLimit : Int) (matchCount : Nat) : Nat :=
  if pluginLimit < 0 ∨ (matchCount : Int) < pluginLimit then matchCount
  else pluginLimit.toNat

/-- The login prompt text of the unauthenticated branch (line 150). -/
def loginPromptText (user redirect : String) : String :=
  "Hello @" ++ user ++ ", you are not currently logged in to the backend system. Please visit "
    ++ redirect ++ " to login"

/-- The dispatch loop (lines 183-191): for each index below the reassigned
pluginLimit, invoke the listener's process on its clone and await the send
of its replies; the first exception is caught by the surrounding catch
(line 192) and logged, ending the loop.  A missing array element (an
undefined lookup) likewise surfaces as a caught TypeError. -/
def dispatchLoop (env : DispatchEnv) (ls : List ListenerEntry) (cs : List CloneCtx) :
    Nat → Nat → List DispatchEvent
  | _, 0 => []
  | i, n + 1 =>
    match ls[i]?, cs[i]? with
    | some l, some ctx =>
      (DispatchEvent.processCalled l.instId) ::
        (match env.processor l.instId ctx with
        | Except.error _ => [DispatchEvent.errorLogged]
        | Except.ok msgs =>
          match env.send ctx msgs with
          | Except.error _ => [DispatchEvent.errorLogged]
          | Except.ok _ => DispatchEvent.msgsSent ctx msgs :: dispatchLoop env ls cs (i + 1) n)
    | _, _ => [DispatchEvent.errorLogged]

/-- processMessage (lines 140-202).  The authentication gate runs first:
for an unauthenticated sender a challenge is generated and one plain text
prompt is sent to extraData.contexts[0] (line 149), with no listener
invoked; this branch has no try block, so a missing extraData or missing
contexts key would crash.  The authenticated branch reads the match set
from extraData inside a try block (a missing key is a caught TypeError),
clips the loop bound with effectiveLimit, and runs the dispatch loop. -/
def processMessage (env : DispatchEnv) (c : ChatContextData) : List DispatchEvent :=
  if env.isAuthenticated c = false then
    let redirect := env.generateChallenge c.userName
    match c.extraData with
    | none => [DispatchEvent.crashed]
    | some e =>
      match e.contexts with
      | none => [DispatchEvent.crashed]
      | some cs =>
        [DispatchEvent.challengeSent cs.head? (loginPromptText c.userName redirect)]
  else
    match c.extraData with
    | none => [DispatchEvent.errorLogged]
    | some e =>
      match e.listeners with
      | none => [DispatchEvent.errorLogged]
      | some ls =>
        dispatchLoop env ls (e.contexts.getD []) 0 (effectiveLimit env.pluginLimit ls.length)

/-- The instIds whose process ran, in order, within one event trace. -/
def calledIds (evs : List DispatchEvent) : List Nat :=
  evs.filterMap (fun ev =>
    match ev with
    | DispatchEvent.processCalled i => some i
    | _ => none)

/-- The number of login prompt sends within one event trace. -/
def countChallenges (evs : List DispatchEvent) : Nat :=
  (evs.filter (fun ev =>
    match ev with
    | DispatchEvent.challengeSent _ _ => true
    | _ => false)).length

/-! ## Plugin loader (ChatBot.loadPlugins and ChatBot.setBotListeners) -/

/-- Priority comparison used by the manifest sort (line 264):
pluginList.sort with comparator a.priority - b.priority. -/
def priLE (a b : ChatPlugin) : Prop := a.priority ≤ b.priority

instance : DecidableRel priLE := fun a b => inferInstanceAs (Decidable (a.priority ≤ b.priority))

instance : IsTotal ChatPlugin priLE := ⟨fun a b => Int.le_total a.priority b.priority⟩

instance : IsTrans ChatPlugin priLE := ⟨fun _ _ _ h h' => Int.le_trans h h'⟩

/-- The manifest sort (line 264).  ECMAScript Array.prototype.sort is
specified stable; with the comparator a.priority - b.priority it computes
the stable ascending sort by priority, which insertion sort realizes. -/
def jsSortByPriority (l : List ChatPlugin) : List ChatPlugin :=
  List.insertionSort priLE l

/-- Environment of the loader: plugin home and module directory paths, the
file system existence test, the yaml parser result for a manifest path
(Except.error models a parse exception of readYamlFile), the package name
read from a package.json path, and the instantiation of a listener class
(keyed by plugin path and listener name) as an instId. -/
structure LoadEnv where
  pluginHome : String
  dirname : String
  fileExists : String → Bool
  parseYaml : String → Except Unit (List ChatPlugin)
  packageNameOf : String → String
  instantiate : String → String → Nat

/-- The configured plugin home manifest path (line 244). -/
def pluginYamlPrimary (env : LoadEnv) : String := env.pluginHome ++ "/plugin.yaml"

/-- The fallback built in manifest path (line 250). -/
def pluginYamlFallback (env : LoadEnv) : String := env.dirname ++ "/../config/plugin.yaml"

/-- readYamlFile (lines 347-360): throws when the file does not exist or
when parsing fails, otherwise returns the parsed plugin list. -/
def readYamlFile (env : LoadEnv) (p : String) : Except Unit (List ChatPlugin) :=
  if env.fileExists p = false then Except.error () else env.parseYaml p

/-- The installed path of a plugin (lines 272-278): a two segment package
id resolves to a two level path under the plugin home. -/
def pluginPathOf (env : LoadEnv) (plugin : ChatPlugin) : String :=
  match plugin.pkg.splitOn "/" with
  | [s0, s1] => env.pluginHome ++ "/" ++ s0 ++ "/" ++ s1
  | _ => env.pluginHome ++ "/" ++ plugin.pkg

/-- One registration performed by the loader: into the message listener or
the event listener registry. -/
inductive Registration where
  | message (e : ListenerEntry)
  | event (e : ListenerEntry)
deriving DecidableEq

/-- The per-plugin body of the load loop (lines 268-331): skip when the
installed path is missing or the installed package name disagrees with the
manifest; otherwise classify each declared listener name by suffix and
register it, skipping unsupported names. -/
def loadOnePlugin (env : LoadEnv) (plugin : ChatPlugin) : List Registration :=
  let pluginPath := pluginPathOf env plugin
  if env.fileExists pluginPath = false then []
  else if plugin.pkg ≠ env.packageNameOf (pluginPath ++ "/package.json") then []
  else
    plugin.listenerNames.flatMap (fun name =>
      if name.endsWith "MessageListener" then
        [Registration.message
          { listenerName := name, listenerType := ListenerType.MESSAGE,
            instId := env.instantiate pluginPath name, chatPlugin := plugin }]
      else if name.endsWith "EventListener" then
        [Registration.event
          { listenerName := name, listenerType := ListenerType.EVENT,
            instId := env.instantiate pluginPath name, chatPlugin := plugin }]
      else [])

/-- The body of loadPlugins inside its try block (lines 241-331).  When
neither manifest exists the pass logs errors and returns early with no
registrations (the Bool records that skip); the only throw sites are inside
readYamlFile, reached before any registration. -/
def loadPluginsTry (env : LoadEnv) : Except Unit (Bool × List Registration) :=
  if env.fileExists (pluginYamlPrimary env) = false ∧
      env.fileExists (pluginYamlFallback env) = false then
    Except.ok (true, [])
  else
    let path := if env.fileExists (pluginYamlPrimary env) then pluginYamlPrimary env
      else pluginYamlFallback env
    match readYamlFile env path with
    | Except.error e => Except.error e
    | Except.ok pluginList =>
      Except.ok (false, (jsSortByPriority pluginList).flatMap (loadOnePlugin env))

/-- loadPlugins with its outer catch (lines 332-338): any exception is
logged and swallowed, so the caller always receives a normal return; a
throw can only happen before the first registration, leaving none. -/
def loadPlugins (env : LoadEnv) : Bool × List Registration :=
  match loadPluginsTry env with
  | Except.ok r => r
  | Except.error _ => (false, [])

/-- The message listener registrations of a load pass, in order. -/
def messageEntries (regs : List Registration) : List ListenerEntry :=
  regs.filterMap (fun r =>
    match r with
    | Registration.message e => some e
    | Registration.event _ => none)

/-- Registering every message listener of the load pass into the
BotMessageListener registry, in order. -/
def loadPluginsInto (env : LoadEnv) (s : BotState) : BotState :=
  (messageEntries (loadPlugins env).2).foldl registerChatListener s

/-- The built in logout plugin descriptor registered by setBotListeners
(lines 219-225). -/
def logoutPlugin : ChatPlugin :=
  { pkg := "chat", listenerNames := ["LogoutMessageListener"], registry := "local",
    version := 1, priority := 1 }

/-- The built in LogoutListener registry entry (lines 215-226); the
listener instance created by new LogoutMessageListener is identified by
the given instId. -/
def logoutListenerEntry (instId : Nat) : ListenerEntry :=
  { listenerName := "LogoutListener", listenerType := ListenerType.MESSAGE,
    instId := instId, chatPlugin := logoutPlugin }

/-- setBotListeners (lines 212-229): registers the LogoutListener entry. -/
def setBotListeners (s : BotState) (logoutInstId : Nat) : BotState :=
  registerChatListener s (logoutListenerEntry logoutInstId)

/-- The registry built by the ChatBot constructor (lines 162-165):
setBotListeners runs first, then loadPlugins populates the rest. -/
def chatBotRegistry (env : LoadEnv) (botName : String) (logoutInstId : Nat) : BotState :=
  loadPluginsInto env (setBotListeners { botName := botName, chatListeners := [] } logoutInstId)

/-! ## Heap model of the per-listener deep clone (matchMessage line 92)

The pure matcher model above treats contexts as values, which cannot
express aliasing.  To settle the independence of the per-listener clones we
model the mutable extraData object graph explicitly: a heap maps references
to extraData objects, a context holds a reference, and lodash cloneDeep
copies the referenced object into a freshly allocated cell. -/

/-- The mutable extraData object: the stamped chatPlugin and the rest of
its (nested, mutable) content. -/
structure ExtraObj where
  chatPlugin : Option ChatPlugin
  fields : List (String × String)
deriving DecidableEq

/-- A heap of extraData objects: cell contents and the next fresh
reference. -/
structure Heap where
  cells : Nat → ExtraObj
  nextRef : Nat

/-- Mutation of the object behind one reference. -/
def heapWrite (h : Heap) (r : Nat) (v : ExtraObj) : Heap :=
  { h with cells := fun n => if n = r then v else h.cells n }

/-- Allocation of a fresh object. -/
def heapAlloc (h : Heap) (v : ExtraObj) : Nat × Heap :=
  (h.nextRef,
    { cells := fun n => if n = h.nextRef then v else h.cells n, nextRef := h.nextRef + 1 })

/-- A context as a holder of the reference to its extraData object. -/
structure RefCtx where
  extraRef : Nat
deriving DecidableEq

/-- The clone of lines 92-99 in the heap model: cloneDeep reads the
extraData object of the original and copies it into a fresh cell, which is
then stamped with the listener's chatPlugin. -/
def cloneForListener (h : Heap) (orig : RefCtx) (plugin : ChatPlugin) : RefCtx × Heap :=
  let v := h.cells orig.extraRef
  let (r, h') := heapAlloc h { v with chatPlugin := some plugin }
  ({ extraRef := r }, h')

/-- The cloning performed across one match pass: one independent clone per
registered listener, in registry order. -/
def cloneAllForMatch (h : Heap) (orig : RefCtx) :
    List ListenerEntry → List RefCtx × Heap
  | [] => ([], h)
  | l :: rest =>
    let (c, h') := cloneForListener h orig l.chatPlugin
    let (cs, h'') := cloneAllForMatch h' orig rest
    (c :: cs, h'')

/-! ## Helper lemmas -/

theorem listStartsWith_self_append (l post : List Char) :
    listStartsWith l (l ++ post) = true := by
  induction l with
  | nil => rfl
  | cons a as ih => simp [listStartsWith, ih]

theorem listHasSub_of_startsWith {n h : List Char} (hs : listStartsWith n h = true) :
    listHasSub n h = true := by
  cases h with
  | nil => simpa [listHasSub] using hs
  | cons b bs => simp [listHasSub, hs]

theorem listHasSub_append_left {n t : List Char} (pre : List Char)
    (ht : listHasSub n t = true) : listHasSub n (pre ++ t) = true := by
  induction pre with
  | nil => simpa using ht
  | cons a as ih => simp [listHasSub, ih]

theorem strContains_append_mid (pre mid post : String) :
    strContains (pre ++ (mid ++ post)) mid = true := by
  unfold strContains
  rw [String.data_append, String.data_append]
  exact listHasSub_append_left pre.data
    (listHasSub_of_startsWith (listStartsWith_self_append mid.data post.data))

theorem matchLoop_pure (f : Nat → CloneCtx → Bool) (c : ChatContextData) :
    ∀ L : List ListenerEntry,
      matchLoop (pureMatchEnv f) c L =
        (L.map (fun l => l.instId),
          Except.ok (L.filter (fun l => f l.instId (mkClone c l.chatPlugin)),
            (L.filter (fun l => f l.instId (mkClone c l.chatPlugin))).map
              (fun l => mkClone c l.chatPlugin)))
  | [] => rfl
  | l :: rest => by
    have ih := matchLoop_pure f c rest
    simp only [pureMatchEnv] at ih
    simp only [matchLoop, pureMatchEnv, List.filter_cons, ih]
    by_cases h : f l.instId (mkClone c l.chatPlugin) <;> simp [h]

/-! ## Concrete scenario used by counterexamples and witnesses -/

/-- A concrete plugin descriptor. -/
def cPlugin : ChatPlugin :=
  { pkg := "p1", listenerNames := ["AMessageListener"], registry := "npm",
    version := 1, priority := 1 }

/-- A concrete registry entry for cPlugin. -/
def cEntry : ListenerEntry :=
  { listenerName := "AMessageListener", listenerType := ListenerType.MESSAGE,
    instId := 7, chatPlugin := cPlugin }

/-- A second concrete registry entry. -/
def cEntry2 : ListenerEntry :=
  { listenerName := "BMessageListener", listenerType := ListenerType.MESSAGE,
    instId := 8, chatPlugin := cPlugin }

/-- A bot whose registry holds cEntry only. -/
def cBot : BotState := { botName := "zowe", chatListeners := [cEntry] }

/-- A matcher behavior that accepts every message. -/
def alwaysTrue : Nat → CloneCtx → Bool := fun _ _ => true

/-- An inbound context whose text does not mention the bot. -/
def cCtxUnaddressed : ChatContextData :=
  { payloadType := PayloadType.MESSAGE, payloadData := "hello world",
    userName := "bob", extraData := none }

/-- An inbound context addressed to the bot. -/
def cCtxAddressed : ChatContextData :=
  { payloadType := PayloadType.MESSAGE, payloadData := "@zowe help",
    userName := "bob", extraData := none }

/-! ## C1 -/

/-- C1 (counterexample): with the singleton registry holding cEntry, whose
matcher accepts every message, the unaddressed inbound context has
matches(clone(C)) = true for that entry, yet matchMessage returns false
and records no match set on the context (extraData stays undefined), so
the claimed equivalence and the claimed recording fail at this input. -/
theorem c1_counterexample :
    alwaysTrue cEntry.instId (mkClone cCtxUnaddressed cEntry.chatPlugin) = true ∧
    (matchMessage (pureMatchEnv alwaysTrue) cBot cCtxUnaddressed).ret = some false ∧
    (matchMessage (pureMatchEnv alwaysTrue) cBot cCtxUnaddressed).ctx.extraData = none := by
  decide

/-- C1 (amended): for every registered listener list and every inbound
context that is addressed to the bot (its payload text contains "@" ++
botName) and carries a MESSAGE payload, matchMessage returns true iff at
least one registry entry's matcher accepts its stamped clone, and the
match set recorded on the context lists exactly the matching entries with
their clones, in registry order. -/
theorem c1_match_iff_recorded (f : Nat → CloneCtx → Bool) (s : BotState) (c : ChatContextData)
    (hAddr : strContains c.payloadData ("@" ++ s.botName) = true)
    (hType : c.payloadType = PayloadType.MESSAGE) :
    ((matchMessage (pureMatchEnv f) s c).ret = some true ↔
      ∃ l ∈ s.chatListeners, f l.instId (mkClone c l.chatPlugin) = true) ∧
    ∃ e, (matchMessage (pureMatchEnv f) s c).ctx.extraData = some e ∧
      e.listeners = some (s.chatListeners.filter (fun l => f l.instId (mkClone c l.chatPlugin))) ∧
      e.contexts = some ((s.chatListeners.filter
        (fun l => f l.instId (mkClone c l.chatPlugin))).map (fun l => mkClone c l.chatPlugin)) := by
  have hout : matchMessage (pureMatchEnv f) s c =
      { ret := some (decide (0 < (s.chatListeners.filter
          (fun l => f l.instId (mkClone c l.chatPlugin))).length)),
        ctx := setMatchSet c
          (s.chatListeners.filter (fun l => f l.instId (mkClone c l.chatPlugin)))
          ((s.chatListeners.filter (fun l => f l.instId (mkClone c l.chatPlugin))).map
            (fun l => mkClone c l.chatPlugin)),
        consulted := s.chatListeners.map (fun l => l.instId), errorLogged := false } := by
    rw [matchMessage, if_neg (by simp [hAddr]), if_pos hType, matchLoop_pure]
  constructor
  · rw [hout]
    simp only [Option.some_inj, decide_eq_true_iff]
    constructor
    · intro hpos
      rcases List.exists_mem_of_length_pos hpos with ⟨l, hl⟩
      rcases List.mem_filter.mp hl with ⟨hmem, hf⟩
      exact ⟨l, hmem, by simpa using hf⟩
    · rintro ⟨l, hl, hf⟩
      have hmem : l ∈ s.chatListeners.filter (fun l => f l.instId (mkClone c l.chatPlugin)) :=
        List.mem_filter.mpr ⟨hl, by simpa using hf⟩
      exact List.length_pos.mpr (List.ne_nil_of_mem hmem)
  · rw [hout]
    cases hED : c.extraData with
    | none =>
      exact ⟨{ chatPlugin := none,
               listeners := some (s.chatListeners.filter
                 (fun l => f l.instId (mkClone c l.chatPlugin))),
               contexts := some ((s.chatListeners.filter
                 (fun l => f l.instId (mkClone c l.chatPlugin))).map
                   (fun l => mkClone c l.chatPlugin)) },
             by simp [setMatchSet, hED], rfl, rfl⟩
    | some e0 =>
      exact ⟨{ chatPlugin := e0.chatPlugin,
               listeners := some (s.chatListeners.filter
                 (fun l => f l.instId (mkClone c l.chatPlugin))),
               contexts := some ((s.chatListeners.filter
                 (fun l => f l.instId (mkClone c l.chatPlugin))).map
                   (fun l => mkClone c l.chatPlugin)) },
             by simp [setMatchSet, hED], rfl, rfl⟩

/-- C1 (witness): the amended theorem applied to the concrete addressed
context and the singleton registry of cEntry. -/
theorem c1_witness :
    (strContains cCtxAddressed.payloadData ("@" ++ cBot.botName) = true ∧
      cCtxAddressed.payloadType = PayloadType.MESSAGE) ∧
    (((matchMessage (pureMatchEnv alwaysTrue) cBot cCtxAddressed).ret = some true ↔
      ∃ l ∈ cBot.chatListeners, alwaysTrue l.instId (mkClone cCtxAddressed l.chatPlugin) = true) ∧
    ∃ e, (matchMessage (pureMatchEnv alwaysTrue) cBot cCtxAddressed).ctx.extraData = some e ∧
      e.listeners = some (cBot.chatListeners.filter
        (fun l => alwaysTrue l.instId (mkClone cCtxAddressed l.chatPlugin))) ∧
      e.contexts = some ((cBot.chatListeners.filter
        (fun l => alwaysTrue l.instId (mkClone cCtxAddressed l.chatPlugin))).map
          (fun l => mkClone cCtxAddressed l.chatPlugin))) :=
  ⟨⟨by decide, by decide⟩,
    c1_match_iff_recorded alwaysTrue cBot cCtxAddressed (by decide) (by decide)⟩

/-! ## C2 -/

theorem effectiveLimit_le (pl : Int) (n : Nat) : effectiveLimit pl n ≤ n := by
  unfold effectiveLimit
  split <;> omega

theorem calledIds_dispatchLoop_ok (env : DispatchEnv) (ls : List ListenerEntry)
    (cs : List CloneCtx)
    (hproc : ∀ i ctx, ∃ msgs, env.processor i ctx = Except.ok msgs)
    (hsend : ∀ ctx msgs, env.send ctx msgs = Except.ok ()) :
    ∀ (n i : Nat), i + n ≤ ls.length → ls.length = cs.length →
      calledIds (dispatchLoop env ls cs i n) = ((ls.drop i).take n).map (fun l => l.instId) := by
  intro n
  induction n with
  | zero => intro i _ _; simp [dispatchLoop, calledIds]
  | succ n ih =>
    intro i hn hlen
    have hi : i < ls.length := by omega
    have hic : i < cs.length := by omega
    rcases hproc ls[i].instId cs[i] with ⟨msgs, hmsgs⟩
    have hstep : dispatchLoop env ls cs i (n + 1) =
        DispatchEvent.processCalled ls[i].instId ::
          DispatchEvent.msgsSent cs[i] msgs :: dispatchLoop env ls cs (i + 1) n := by
      rw [dispatchLoop, List.getElem?_eq_getElem hi, List.getElem?_eq_getElem hic]
      simp [hmsgs, hsend cs[i] msgs]
    rw [hstep, List.drop_eq_getElem_cons hi, List.take_succ_cons, List.map_cons]
    simp only [calledIds, List.filterMap_cons] at ih ⊢
    rw [ih (i + 1) (by omega) hlen]

/-- C2: with the registry-derived match set attached and every process and
send succeeding, the dispatcher invokes process on exactly the first
effectiveLimit matched listeners in match order, where effectiveLimit is
the match count when pluginLimit is negative or exceeds it and otherwise
min pluginLimit matchCount; in particular a limit of -1 over 5 matches
invokes 5, a limit of 2 invokes the first 2, and a limit of 10 invokes 5. -/
theorem c2_plugin_limit (env : DispatchEnv) (c : ChatContextData) (e : ExtraData)
    (ls : List ListenerEntry) (cs : List CloneCtx)
    (hAuth : env.isAuthenticated c = true)
    (hED : c.extraData = some e) (hls : e.listeners = some ls) (hcs : e.contexts = some cs)
    (hlen : ls.length = cs.length)
    (hproc : ∀ i ctx, ∃ msgs, env.processor i ctx = Except.ok msgs)
    (hsend : ∀ ctx msgs, env.send ctx msgs = Except.ok ()) :
    calledIds (processMessage env c) =
      ((ls.take (effectiveLimit env.pluginLimit ls.length)).map (fun l => l.instId)) ∧
    (env.pluginLimit < 0 → effectiveLimit env.pluginLimit ls.length = ls.length) ∧
    (0 ≤ env.pluginLimit →
      effectiveLimit env.pluginLimit ls.length = min env.pluginLimit.toNat ls.length) ∧
    effectiveLimit (-1) 5 = 5 ∧ effectiveLimit 2 5 = 2 ∧ effectiveLimit 10 5 = 5 := by
  have hout : processMessage env c =
      dispatchLoop env ls cs 0 (effectiveLimit env.pluginLimit ls.length) := by
    rw [processMessage, if_neg (by simp [hAuth]), hED]
    simp [hls, hcs]
  refine ⟨?_, ?_, ?_, by decide, by decide, by decide⟩
  · rw [hout, calledIds_dispatchLoop_ok env ls cs hproc hsend
      (effectiveLimit env.pluginLimit ls.length) 0
      (by simpa using effectiveLimit_le env.pluginLimit ls.length) hlen]
    simp
  · intro h; unfold effectiveLimit; split <;> omega
  · intro h; unfold effectiveLimit; split <;> omega

/-- A dispatch environment whose listeners and transport never fail. -/
def okDispatchEnv (pl : Int) : DispatchEnv :=
  { isAuthenticated := fun _ => true
    generateChallenge := fun u => "https://chat.example/login/" ++ u
    processor := fun _ _ => Except.ok [{ message := "reply", msgType := MsgKind.PLAIN_TEXT }]
    send := fun _ _ => Except.ok ()
    pluginLimit := pl }

/-- A matched context carrying five matched listeners with ids 0..4. -/
def c2Listeners : List ListenerEntry :=
  (List.range 5).map (fun i =>
    { listenerName := "AMessageListener", listenerType := ListenerType.MESSAGE,
      instId := i, chatPlugin := cPlugin })

/-- The five clones of the matched context. -/
def c2Contexts : List CloneCtx :=
  c2Listeners.map (fun l => mkClone cCtxAddressed l.chatPlugin)

/-- The concrete matched context of the C2 witness. -/
def c2Ctx : ChatContextData :=
  { cCtxAddressed with
    extraData := some { chatPlugin := none, listeners := some c2Listeners,
                        contexts := some c2Contexts } }

/-- C2 (witness): the theorem applied to five matched listeners and a
configured pluginLimit of 2. -/
theorem c2_witness :
    calledIds (processMessage (okDispatchEnv 2) c2Ctx) =
      ((c2Listeners.take (effectiveLimit (okDispatchEnv 2).pluginLimit c2Listeners.length)).map
        (fun l => l.instId)) ∧
    ((okDispatchEnv 2).pluginLimit < 0 →
      effectiveLimit (okDispatchEnv 2).pluginLimit c2Listeners.length = c2Listeners.length) ∧
    (0 ≤ (okDispatchEnv 2).pluginLimit →
      effectiveLimit (okDispatchEnv 2).pluginLimit c2Listeners.length =
        min (okDispatchEnv 2).pluginLimit.toNat c2Listeners.length) ∧
    effectiveLimit (-1) 5 = 5 ∧ effectiveLimit 2 5 = 2 ∧ effectiveLimit 10 5 = 5 :=
  c2_plugin_limit (okDispatchEnv 2) c2Ctx _ c2Listeners c2Contexts rfl rfl rfl rfl
    (by decide) (fun i ctx => ⟨_, rfl⟩) (fun ctx msgs => rfl)

/-! ## C3 -/

/-- The clone-shaped view of a context: the target a send addressed to the
original (unmatched) inbound context itself would carry. -/
def toCloneView (c : ChatContextData) : CloneCtx :=
  { payloadType := c.payloadType, payloadData := c.payloadData, userName := c.userName,
    extra := c.extraData.map (fun e => { chatPlugin := e.chatPlugin }) }

/-- A dispatch environment whose security facility rejects every sender. -/
def unauthEnv : DispatchEnv :=
  { isAuthenticated := fun _ => false
    generateChallenge := fun u => "https://chat.example/login/" ++ u
    processor := fun _ _ => Except.ok []
    send := fun _ _ => Except.ok ()
    pluginLimit := -1 }

/-- The matched context reached by running the matcher on the concrete
addressed context with the singleton registry. -/
def cCtxMatched : ChatContextData :=
  { payloadType := PayloadType.MESSAGE, payloadData := "@zowe help", userName := "bob",
    extraData := some { chatPlugin := none, listeners := some [cEntry],
                        contexts := some [mkClone cCtxAddressed cPlugin] } }

/-- C3 (counterexample): on the concrete matched context produced by the
matcher, the unauthenticated branch emits exactly one login prompt send,
but its target is extraData.contexts[0] — the first matched listener's
stamped clone — which differs from the original (unmatched) context, so
the addressing part of the claim fails at this input. -/
theorem c3_counterexample :
    (matchMessage (pureMatchEnv alwaysTrue) cBot cCtxAddressed).ctx = cCtxMatched ∧
    processMessage unauthEnv cCtxMatched =
      [DispatchEvent.challengeSent (some (mkClone cCtxAddressed cPlugin))
        (loginPromptText "bob" "https://chat.example/login/bob")] ∧
    mkClone cCtxAddressed cPlugin ≠ toCloneView cCtxMatched := by
  decide

/-- C3 (amended): for every dispatched context whose sender is
unauthenticated, no matched listener's process is called, and exactly one
plain text login prompt send occurs, carrying the generated challenge URL
and addressed to the first matched listener's cloned context
(extraData.contexts[0]) rather than the original context. -/
theorem c3_auth_gate (env : DispatchEnv) (c : ChatContextData) (e : ExtraData)
    (cs : List CloneCtx)
    (hAuth : env.isAuthenticated c = false)
    (hED : c.extraData = some e) (hcs : e.contexts = some cs) :
    processMessage env c =
      [DispatchEvent.challengeSent cs.head?
        (loginPromptText c.userName (env.generateChallenge c.userName))] ∧
    calledIds (processMessage env c) = [] ∧
    countChallenges (processMessage env c) = 1 ∧
    strContains (loginPromptText c.userName (env.generateChallenge c.userName))
      (env.generateChallenge c.userName) = true := by
  have hout : processMessage env c =
      [DispatchEvent.challengeSent cs.head?
        (loginPromptText c.userName (env.generateChallenge c.userName))] := by
    rw [processMessage, if_pos hAuth, hED]
    simp [hcs]
  refine ⟨hout, by rw [hout]; rfl, by rw [hout]; rfl, ?_⟩
  have hshape : loginPromptText c.userName (env.generateChallenge c.userName) =
      ("Hello @" ++ c.userName ++ ", you are not currently logged in to the backend system. Please visit ")
        ++ (env.generateChallenge c.userName ++ " to login") := by
    unfold loginPromptText
    simp [String.append_assoc]
  rw [hshape]
  exact strContains_append_mid _ _ _

/-- C3 (witness): the amended theorem applied to the concrete matched
context under the rejecting security facility. -/
theorem c3_witness :
    (unauthEnv.isAuthenticated cCtxMatched = false) ∧
    (processMessage unauthEnv cCtxMatched =
      [DispatchEvent.challengeSent [mkClone cCtxAddressed cPlugin].head?
        (loginPromptText cCtxMatched.userName
          (unauthEnv.generateChallenge cCtxMatched.userName))] ∧
    calledIds (processMessage unauthEnv cCtxMatched) = [] ∧
    countChallenges (processMessage unauthEnv cCtxMatched) = 1 ∧
    strContains (loginPromptText cCtxMatched.userName
        (unauthEnv.generateChallenge cCtxMatched.userName))
      (unauthEnv.generateChallenge cCtxMatched.userName) = true) :=
  ⟨rfl, c3_auth_gate unauthEnv cCtxMatched _ [mkClone cCtxAddressed cPlugin] rfl rfl rfl⟩

/-! ## C4 -/

theorem crashed_not_mem_dispatchLoop (env : DispatchEnv) (ls : List ListenerEntry)
    (cs : List CloneCtx) :
    ∀ (n i : Nat), DispatchEvent.crashed ∉ dispatchLoop env ls cs i n := by
  intro n
  induction n with
  | zero => intro i; simp [dispatchLoop]
  | succ n ih =>
    intro i
    rw [dispatchLoop]
    cases hl : ls[i]? with
    | none => simp
    | some l =>
      cases hc : cs[i]? with
      | none => simp
      | some ctx =>
        cases hp : env.processor l.instId ctx with
        | error e => simp [hp]
        | ok msgs =>
          cases hs : env.send ctx msgs with
          | error e => simp [hp, hs]
          | ok u => simp [hp, hs, ih (i + 1)]

theorem dispatchLoop_fail (env : DispatchEnv) (ls : List ListenerEntry) (cs : List CloneCtx)
    (k : Nat) (hlen : ls.length = cs.length) (hkl : k < ls.length)
    (hpre : ∀ j (hj : j < ls.length) (hjc : j < cs.length), j < k →
      ∃ msgs, env.processor ls[j].instId cs[j] = Except.ok msgs ∧
        env.send cs[j] msgs = Except.ok ())
    (hfail : ∀ (hj : k < ls.length) (hjc : k < cs.length),
      env.processor ls[k].instId cs[k] = Except.error () ∨
      ∃ msgs, env.processor ls[k].instId cs[k] = Except.ok msgs ∧
        env.send cs[k] msgs = Except.error ()) :
    ∀ (n i : Nat), i ≤ k → k < i + n →
      calledIds (dispatchLoop env ls cs i n) =
        ((ls.drop i).take (k + 1 - i)).map (fun l => l.instId) ∧
      DispatchEvent.errorLogged ∈ dispatchLoop env ls cs i n := by
  intro n
  induction n with
  | zero => intro i hik hki; omega
  | succ n ih =>
    intro i hik hki
    have hi : i < ls.length := by omega
    have hic : i < cs.length := by omega
    have hgl : ls[i]? = some ls[i] := List.getElem?_eq_getElem hi
    have hgc : cs[i]? = some cs[i] := List.getElem?_eq_getElem hic
    by_cases hik' : i = k
    · subst hik'
      have htake : (ls.drop i).take (i + 1 - i) = [ls[i]] := by
        have h1 : i + 1 - i = 1 := by omega
        rw [h1, List.drop_eq_getElem_cons hi]
        rfl
      rcases hfail hi hic with hperr | ⟨msgs, hok, hserr⟩
      · have hstep : dispatchLoop env ls cs i (n + 1) =
            [DispatchEvent.processCalled ls[i].instId, DispatchEvent.errorLogged] := by
          rw [dispatchLoop, hgl, hgc]
          simp [hperr]
        rw [hstep, htake]
        exact ⟨rfl, by simp⟩
      · have hstep : dispatchLoop env ls cs i (n + 1) =
            [DispatchEvent.processCalled ls[i].instId, DispatchEvent.errorLogged] := by
          rw [dispatchLoop, hgl, hgc]
          simp [hok, hserr]
        rw [hstep, htake]
        exact ⟨rfl, by simp⟩
    · have hilt : i < k := by omega
      rcases hpre i hi hic hilt with ⟨msgs, hok, hsok⟩
      have hstep : dispatchLoop env ls cs i (n + 1) =
          DispatchEvent.processCalled ls[i].instId ::
            DispatchEvent.msgsSent cs[i] msgs :: dispatchLoop env ls cs (i + 1) n := by
        rw [dispatchLoop, hgl, hgc]
        simp [hok, hsok]
      rcases ih (i + 1) (by omega) (by omega) with ⟨ihids, ihmem⟩
      have htake : (ls.drop i).take (k + 1 - i) =
          ls[i] :: (ls.drop (i + 1)).take (k + 1 - (i + 1)) := by
        have h1 : k + 1 - i = (k + 1 - (i + 1)) + 1 := by omega
        rw [h1, List.drop_eq_getElem_cons hi, List.take_succ_cons]
      constructor
      · rw [hstep, htake, List.map_cons]
        simp only [calledIds, List.filterMap_cons] at ihids ⊢
        rw [ihids]
      · rw [hstep]
        simp [ihmem]

/-- C4: if, within the effective limit, the listener at index k raises
during process or its send raises, the listeners at indices above k are
not invoked for that message (exactly the first k+1 are), the error is
logged by the dispatch catch, and the process does not terminate (no
uncaught exception escapes the dispatch pass). -/
theorem c4_fail_stop (env : DispatchEnv) (c : ChatContextData) (e : ExtraData)
    (ls : List ListenerEntry) (cs : List CloneCtx) (k : Nat)
    (hAuth : env.isAuthenticated c = true)
    (hED : c.extraData = some e) (hls : e.listeners = some ls) (hcs : e.contexts = some cs)
    (hlen : ls.length = cs.length)
    (hk : k < effectiveLimit env.pluginLimit ls.length)
    (hpre : ∀ j (hj : j < ls.length) (hjc : j < cs.length), j < k →
      ∃ msgs, env.processor ls[j].instId cs[j] = Except.ok msgs ∧
        env.send cs[j] msgs = Except.ok ())
    (hfail : ∀ (hj : k < ls.length) (hjc : k < cs.length),
      env.processor ls[k].instId cs[k] = Except.error () ∨
      ∃ msgs, env.processor ls[k].instId cs[k] = Except.ok msgs ∧
        env.send cs[k] msgs = Except.error ()) :
    calledIds (processMessage env c) = ((ls.take (k + 1)).map (fun l => l.instId)) ∧
    DispatchEvent.errorLogged ∈ processMessage env c ∧
    DispatchEvent.crashed ∉ processMessage env c := by
  have hkl : k < ls.length := lt_of_lt_of_le hk (effectiveLimit_le env.pluginLimit ls.length)
  have hout : processMessage env c =
      dispatchLoop env ls cs 0 (effectiveLimit env.pluginLimit ls.length) := by
    rw [processMessage, if_neg (by simp [hAuth]), hED]
    simp [hls, hcs]
  rcases dispatchLoop_fail env ls cs k hlen hkl hpre hfail
    (effectiveLimit env.pluginLimit ls.length) 0 (by omega) (by omega) with ⟨hids, hmem⟩
  refine ⟨?_, ?_, ?_⟩
  · rw [hout, hids]; simp
  · rw [hout]; exact hmem
  · rw [hout]; exact crashed_not_mem_dispatchLoop env ls cs _ 0

/-- A dispatch environment whose listener with instId 1 raises in process
while every other listener and every send succeed. -/
def failAt1Env : DispatchEnv :=
  { isAuthenticated := fun _ => true
    generateChallenge := fun u => "https://chat.example/login/" ++ u
    processor := fun i _ => if i = 1 then Except.error () else Except.ok []
    send := fun _ _ => Except.ok ()
    pluginLimit := -1 }

/-- C4 (witness): the theorem applied to the five-listener matched context
with the listener at index 1 raising. -/
theorem c4_witness :
    calledIds (processMessage failAt1Env c2Ctx) =
      ((c2Listeners.take (1 + 1)).map (fun l => l.instId)) ∧
    DispatchEvent.errorLogged ∈ processMessage failAt1Env c2Ctx ∧
    DispatchEvent.crashed ∉ processMessage failAt1Env c2Ctx :=
  c4_fail_stop failAt1Env c2Ctx _ c2Listeners c2Contexts 1 rfl rfl rfl rfl (by decide)
    (by decide)
    (fun j hj hjc hjk => by
      have hj0 : j = 0 := by omega
      subst hj0
      exact ⟨[], rfl, rfl⟩)
    (fun hj hjc => Or.inl rfl)

/-! ## C5 -/

theorem filter_orderedInsert_priority (p : Int) (x : ChatPlugin) :
    ∀ l : List ChatPlugin,
      (List.orderedInsert priLE x l).filter (fun y => decide (y.priority = p)) =
        if x.priority = p then
          x :: l.filter (fun y => decide (y.priority = p))
        else l.filter (fun y => decide (y.priority = p))
  | [] => by
    by_cases h : x.priority = p <;> simp [List.orderedInsert, h]
  | b :: l => by
    by_cases hxb : priLE x b
    · rw [List.orderedInsert_of_le priLE l hxb]
      by_cases h : x.priority = p <;> simp [List.filter_cons, h]
    · have hblt : b.priority < x.priority := by
        have := hxb
        unfold priLE at this
        omega
      have hrec := filter_orderedInsert_priority p x l
      by_cases h : x.priority = p
      · have hb : ¬ (b.priority = p) := by omega
        simp [List.orderedInsert, hxb, List.filter_cons, hb, hrec, h]
      · by_cases hb : b.priority = p <;>
          simp [List.orderedInsert, hxb, List.filter_cons, hb, hrec, h]

theorem filter_jsSortByPriority (p : Int) :
    ∀ l : List ChatPlugin,
      (jsSortByPriority l).filter (fun y => decide (y.priority = p)) =
        l.filter (fun y => decide (y.priority = p))
  | [] => rfl
  | x :: l => by
    have hrec := filter_jsSortByPriority p l
    unfold jsSortByPriority at hrec ⊢
    rw [List.insertionSort, filter_orderedInsert_priority, hrec]
    by_cases h : x.priority = p <;> simp [List.filter_cons, h]

/-- Example manifest with priorities [3,1,4,1]. -/
def examplePlugins : List ChatPlugin :=
  [ { pkg := "pa", listenerNames := ["PaMessageListener"], registry := "npm", version := 1, priority := 3 },
    { pkg := "pb", listenerNames := ["PbMessageListener"], registry := "npm", version := 1, priority := 1 },
    { pkg := "pc", listenerNames := ["PcMessageListener"], registry := "npm", version := 1, priority := 4 },
    { pkg := "pd", listenerNames := ["PdMessageListener"], registry := "npm", version := 1, priority := 1 } ]

/-- C5: when the configured manifest exists and parses, the load pass
registers plugins in the order of jsSortByPriority, which is a stable
ascending sort: its output is sorted by priority, is a permutation of the
manifest, and preserves the manifest order of every equal-priority class;
on the example priorities [3,1,4,1] it yields [1,1,3,4] with the two
priority-1 plugins in manifest order. -/
theorem c5_load_order (env : LoadEnv) (manifest : List ChatPlugin)
    (hprim : env.fileExists (pluginYamlPrimary env) = true)
    (hparse : env.parseYaml (pluginYamlPrimary env) = Except.ok manifest) :
    loadPlugins env = (false, (jsSortByPriority manifest).flatMap (loadOnePlugin env)) ∧
    List.Sorted priLE (jsSortByPriority manifest) ∧
    (jsSortByPriority manifest).Perm manifest ∧
    (∀ p : Int, (jsSortByPriority manifest).filter (fun y => decide (y.priority = p)) =
      manifest.filter (fun y => decide (y.priority = p))) ∧
    (jsSortByPriority examplePlugins).map (fun y => y.priority) = [1, 1, 3, 4] ∧
    (jsSortByPriority examplePlugins).map (fun y => y.pkg) = ["pb", "pd", "pa", "pc"] := by
  refine ⟨?_, List.sorted_insertionSort priLE manifest, List.perm_insertionSort priLE manifest,
    fun p => filter_jsSortByPriority p manifest, by decide, by decide⟩
  have hno : ¬(env.fileExists (pluginYamlPrimary env) = false ∧
      env.fileExists (pluginYamlFallback env) = false) := by simp [hprim]
  rw [loadPlugins, loadPluginsTry, if_neg hno]
  simp [hprim, readYamlFile, hparse]

/-- A loader environment in which every file exists, the manifest parses
to examplePlugins, and package names agree with the manifest. -/
def exampleLoadEnv : LoadEnv :=
  { pluginHome := "/zowe/plugins"
    dirname := "/opt/chat/bot"
    fileExists := fun _ => true
    parseYaml := fun _ => Except.ok examplePlugins
    packageNameOf := fun p =>
      if p = "/zowe/plugins/pa/package.json" then "pa"
      else if p = "/zowe/plugins/pb/package.json" then "pb"
      else if p = "/zowe/plugins/pc/package.json" then "pc"
      else "pd"
    instantiate := fun _ _ => 9 }

/-- C5 (witness): the theorem applied to the example manifest. -/
theorem c5_witness :
    loadPlugins exampleLoadEnv =
      (false, (jsSortByPriority examplePlugins).flatMap (loadOnePlugin exampleLoadEnv)) ∧
    List.Sorted priLE (jsSortByPriority examplePlugins) ∧
    (jsSortByPriority examplePlugins).Perm examplePlugins ∧
    (∀ p : Int, (jsSortByPriority examplePlugins).filter (fun y => decide (y.priority = p)) =
      examplePlugins.filter (fun y => decide (y.priority = p))) ∧
    (jsSortByPriority examplePlugins).map (fun y => y.priority) = [1, 1, 3, 4] ∧
    (jsSortByPriority examplePlugins).map (fun y => y.pkg) = ["pb", "pd", "pa", "pc"] :=
  c5_load_order exampleLoadEnv examplePlugins rfl rfl

/-! ## C7 -/

/-- A loader environment in which no file exists at all. -/
def noFilesEnv : LoadEnv :=
  { pluginHome := "/zowe/plugins"
    dirname := "/opt/chat/bot"
    fileExists := fun _ => false
    parseYaml := fun _ => Except.error ()
    packageNameOf := fun _ => ""
    instantiate := fun _ _ => 0 }

/-- C7 (counterexample): with both manifest paths absent, the load pass
returns normally — Except.ok with the skip flag and no registrations —
rather than raising a ConfigError to the caller, so the claimed fail-fast
behavior fails at this input. -/
theorem c7_counterexample :
    loadPluginsTry noFilesEnv = Except.ok (true, []) ∧
    loadPlugins noFilesEnv = (true, []) :=
  ⟨rfl, rfl⟩

/-- C7 (amended): if neither the configured plugin-home manifest nor the
fallback built-in manifest exists, the load pass logs the absence and
returns normally with no plugins registered; no error of any kind is
surfaced to the caller (the outer catch swallows even parse exceptions). -/
theorem c7_no_manifest_skips (env : LoadEnv)
    (h1 : env.fileExists (pluginYamlPrimary env) = false)
    (h2 : env.fileExists (pluginYamlFallback env) = false) :
    loadPluginsTry env = Except.ok (true, []) ∧ loadPlugins env = (true, []) := by
  have htry : loadPluginsTry env = Except.ok (true, []) := by
    rw [loadPluginsTry, if_pos ⟨h1, h2⟩]
  exact ⟨htry, by rw [loadPlugins, htry]⟩

/-- C7 (witness): the amended theorem applied to the environment with no
files. -/
theorem c7_witness :
    (noFilesEnv.fileExists (pluginYamlPrimary noFilesEnv) = false ∧
      noFilesEnv.fileExists (pluginYamlFallback noFilesEnv) = false) ∧
    (loadPluginsTry noFilesEnv = Except.ok (true, []) ∧
      loadPlugins noFilesEnv = (true, [])) :=
  ⟨⟨rfl, rfl⟩, c7_no_manifest_skips noFilesEnv rfl rfl⟩

/-! ## C8 -/

/-- A bot state that has already registered cEntry during startup. -/
def cBotAfterReg : BotState :=
  registerChatListener { botName := "zowe", chatListeners := [] } cEntry

/-- C8 (counterexample): after a matchMessage call has completed on the
one-entry registry (serving has begun), a further registerChatListener
call still extends the registry to two entries — no phase flag prevents
it — so the claimed impossibility fails at this input. -/
theorem c8_counterexample :
    (matchMessage (pureMatchEnv alwaysTrue) cBotAfterReg cCtxAddressed).ret = some true ∧
    (registerChatListener cBotAfterReg cEntry2).chatListeners = [cEntry, cEntry2] ∧
    (registerChatListener cBotAfterReg cEntry2).chatListeners ≠ cBotAfterReg.chatListeners := by
  decide

/-- C8 (amended): registerChatListener appends unconditionally in every
state — matchMessage performs no registry write and no Loading-to-Serving
phase flag exists — so a registration arriving after any matchMessage call
does extend the registry by exactly the new entry; the one-way transition
exists only as a usage convention (all registrations happen in the
constructor before serving). -/
theorem c8_register_always_appends (s : BotState) (e : ListenerEntry) :
    (registerChatListener s e).chatListeners = s.chatListeners ++ [e] ∧
    (registerChatListener s e).chatListeners ≠ s.chatListeners := by
  refine ⟨rfl, ?_⟩
  intro hEq
  have := congrArg List.length hEq
  simp [registerChatListener] at this

/-- C8 (witness): the amended theorem applied after a matchMessage call on
the concrete registry. -/
theorem c8_witness :
    (registerChatListener cBotAfterReg cEntry2).chatListeners =
      cBotAfterReg.chatListeners ++ [cEntry2] ∧
    (registerChatListener cBotAfterReg cEntry2).chatListeners ≠ cBotAfterReg.chatListeners :=
  c8_register_always_appends cBotAfterReg cEntry2

/-! ## C9 -/

theorem matchLoop_error (env : MatchEnv) (c : ChatContextData) :
    ∀ (L : List ListenerEntry) (k : Nat) (hk : k < L.length),
      env.matcher L[k].instId (mkClone c L[k].chatPlugin) = Except.error () →
      (∀ j (hj : j < L.length), j < k →
        ∃ b, env.matcher L[j].instId (mkClone c L[j].chatPlugin) = Except.ok b) →
      (matchLoop env c L).2 = Except.error ()
  | [], k, hk, _, _ => absurd hk (by simp)
  | l :: rest, 0, hk, herr, hpre => by
    simp only [List.getElem_cons_zero] at herr
    simp [matchLoop, herr]
  | l :: rest, k + 1, hk, herr, hpre => by
    rcases hpre 0 (by simp) (by omega) with ⟨b, hb⟩
    simp only [List.getElem_cons_zero] at hb
    have hrest : (matchLoop env c rest).2 = Except.error () := by
      refine matchLoop_error env c rest k (by simpa using hk) ?_ ?_
      · simpa only [List.getElem_cons_succ] using herr
      · intro j hj hjk
        have := hpre (j + 1) (by simpa using hj) (by omega)
        simpa only [List.getElem_cons_succ] using this
    rcases hML : matchLoop env c rest with ⟨tr, r⟩
    rw [hML] at hrest
    simp only at hrest
    subst hrest
    simp [matchLoop, hb, hML]

/-- C9: if a listener's matches implementation raises during the match
pass over an addressed MESSAGE context, the exception is caught at the
matcher's boundary and logged — matchMessage still returns (with the
undefined value) rather than crashing — and every partial match
accumulated in that call is lost: the inbound context is left unchanged,
so no match-result subset is recorded for the dispatcher. -/
theorem c9_match_exception (env : MatchEnv) (s : BotState) (c : ChatContextData) (k : Nat)
    (hAddr : strContains c.payloadData ("@" ++ s.botName) = true)
    (hType : c.payloadType = PayloadType.MESSAGE)
    (hk : k < s.chatListeners.length)
    (herr : env.matcher s.chatListeners[k].instId
      (mkClone c s.chatListeners[k].chatPlugin) = Except.error ())
    (hpre : ∀ j (hj : j < s.chatListeners.length), j < k →
      ∃ b, env.matcher s.chatListeners[j].instId
        (mkClone c s.chatListeners[j].chatPlugin) = Except.ok b) :
    (matchMessage env s c).ctx = c ∧
    (matchMessage env s c).ret = none ∧
    (matchMessage env s c).errorLogged = true := by
  have h2 := matchLoop_error env c s.chatListeners k hk herr hpre
  rcases hML : matchLoop env c s.chatListeners with ⟨tr, r⟩
  rw [hML] at h2
  simp only at h2
  subst h2
  rw [matchMessage, if_neg (by simp [hAddr]), if_pos hType, hML]
  exact ⟨rfl, rfl, rfl⟩

/-- A matcher environment whose listeners always raise. -/
def throwingMatchEnv : MatchEnv := { matcher := fun _ _ => Except.error () }

/-- C9 (witness): the theorem applied to the concrete addressed context and
the singleton registry whose only matcher raises. -/
theorem c9_witness :
    (matchMessage throwingMatchEnv cBot cCtxAddressed).ctx = cCtxAddressed ∧
    (matchMessage throwingMatchEnv cBot cCtxAddressed).ret = none ∧
    (matchMessage throwingMatchEnv cBot cCtxAddressed).errorLogged = true :=
  c9_match_exception throwingMatchEnv cBot cCtxAddressed 0 (by decide) (by decide)
    (by decide) rfl (fun j hj hjk => absurd hjk (by omega))

/-! ## C10 -/

theorem foldl_registerChatListener :
    ∀ (es : List ListenerEntry) (s : BotState),
      es.foldl registerChatListener s =
        { botName := s.botName, chatListeners := s.chatListeners ++ es }
  | [], s => by cases s; simp
  | e :: es, s => by
    rw [List.foldl_cons, foldl_registerChatListener es]
    simp [registerChatListener]

theorem matchLoop_consulted_head (env : MatchEnv) (c : ChatContextData) (l : ListenerEntry)
    (rest : List ListenerEntry) :
    (matchLoop env c (l :: rest)).1.head? = some l.instId := by
  rw [matchLoop]
  cases hm : env.matcher l.instId (mkClone c l.chatPlugin) with
  | error e => rfl
  | ok b =>
    rcases matchLoop env c rest with ⟨tr, r⟩
    simp

/-- C10: the ChatBot constructor registers the built-in LogoutListener
entry (priority 1, package chat) via setBotListeners before loadPlugins
runs, and both only append, so in every resulting serving-phase registry
the LogoutListener entry occupies index 0, and every match pass over an
addressed MESSAGE context consults it first. -/
theorem c10_logout_first (env : LoadEnv) (botName : String) (instId : Nat)
    (menv : MatchEnv) (c : ChatContextData)
    (hAddr : strContains c.payloadData ("@" ++ botName) = true)
    (hType : c.payloadType = PayloadType.MESSAGE) :
    (chatBotRegistry env botName instId).chatListeners.head? =
      some (logoutListenerEntry instId) ∧
    (matchMessage menv (chatBotRegistry env botName instId) c).consulted.head? =
      some instId := by
  have hreg : chatBotRegistry env botName instId =
      { botName := botName,
        chatListeners := logoutListenerEntry instId :: messageEntries (loadPlugins env).2 } := by
    rw [chatBotRegistry, loadPluginsInto, foldl_registerChatListener]
    rfl
  constructor
  · rw [hreg]
    rfl
  · rw [hreg, matchMessage, if_neg (by simp [hAddr]), if_pos hType]
    have hhead := matchLoop_consulted_head menv c (logoutListenerEntry instId)
      (messageEntries (loadPlugins env).2)
    rcases hML : matchLoop menv c
      (logoutListenerEntry instId :: messageEntries (loadPlugins env).2) with ⟨tr, r⟩
    rw [hML] at hhead
    cases r with
    | error e => simpa using hhead
    | ok p =>
      rcases p with ⟨ls, cs⟩
      simpa using hhead

/-- C10 (witness): the theorem applied to the no-files loader environment
(whose registry is the LogoutListener alone) and the concrete addressed
context. -/
theorem c10_witness :
    (chatBotRegistry noFilesEnv "zowe" 0).chatListeners.head? =
      some (logoutListenerEntry 0) ∧
    (matchMessage (pureMatchEnv alwaysTrue) (chatBotRegistry noFilesEnv "zowe" 0) cCtxAddressed).consulted.head? =
      some 0 :=
  c10_logout_first noFilesEnv "zowe" 0 (pureMatchEnv alwaysTrue) cCtxAddressed
    (by decide) (by decide)

/-! ## C6 -/

theorem cloneAllForMatch_ref (orig : RefCtx) :
    ∀ (L : List ListenerEntry) (h : Heap) (i : Nat) (ci : RefCtx),
      (cloneAllForMatch h orig L).1[i]? = some ci → ci.extraRef = h.nextRef + i
  | [], h, i, ci => by simp [cloneAllForMatch]
  | l :: rest, h, 0, ci => by
    intro hci
    have hstep : (cloneAllForMatch h orig (l :: rest)).1 =
        { extraRef := h.nextRef } ::
          (cloneAllForMatch (cloneForListener h orig l.chatPlugin).2 orig rest).1 := rfl
    rw [hstep] at hci
    simp only [List.getElem?_cons_zero, Option.some_inj] at hci
    subst hci
    simp
  | l :: rest, h, i + 1, ci => by
    intro hci
    have hstep : (cloneAllForMatch h orig (l :: rest)).1 =
        { extraRef := h.nextRef } ::
          (cloneAllForMatch (cloneForListener h orig l.chatPlugin).2 orig rest).1 := rfl
    rw [hstep] at hci
    simp only [List.getElem?_cons_succ] at hci
    have hrec := cloneAllForMatch_ref orig rest (cloneForListener h orig l.chatPlugin).2 i ci hci
    have hnx : (cloneForListener h orig l.chatPlugin).2.nextRef = h.nextRef + 1 := rfl
    rw [hrec, hnx]
    omega

/-- C6: the per-listener clones of one match pass live in freshly
allocated extraData cells, so they are mutually independent and
independent of the original context: writing any value through one
clone's extraData reference is not observable through another clone's
reference or through the original context's reference. -/
theorem c6_clone_independence (h : Heap) (orig : RefCtx) (L : List ListenerEntry)
    (hvalid : orig.extraRef < h.nextRef) (i j : Nat) (ci cj : RefCtx) (v : ExtraObj)
    (hi : (cloneAllForMatch h orig L).1[i]? = some ci)
    (hj : (cloneAllForMatch h orig L).1[j]? = some cj)
    (hij : i ≠ j) :
    (heapWrite (cloneAllForMatch h orig L).2 ci.extraRef v).cells cj.extraRef =
      (cloneAllForMatch h orig L).2.cells cj.extraRef ∧
    (heapWrite (cloneAllForMatch h orig L).2 ci.extraRef v).cells orig.extraRef =
      (cloneAllForMatch h orig L).2.cells orig.extraRef := by
  have hrefi := cloneAllForMatch_ref orig L h i ci hi
  have hrefj := cloneAllForMatch_ref orig L h j cj hj
  constructor
  · have hne : cj.extraRef ≠ ci.extraRef := by omega
    simp [heapWrite, hne]
  · have hne : orig.extraRef ≠ ci.extraRef := by omega
    simp [heapWrite, hne]

/-- The initial heap of the C6 witness: the original context owns cell 0. -/
def c6Heap : Heap := { cells := fun _ => { chatPlugin := none, fields := [] }, nextRef := 1 }

/-- The original context of the C6 witness. -/
def c6Orig : RefCtx := { extraRef := 0 }

/-- A mutated extraData value written through the first clone. -/
def c6Write : ExtraObj := { chatPlugin := none, fields := [("scratch", "mutated")] }

/-- C6 (witness): the theorem applied to a two-listener match pass, writing
through the first clone and reading through the second clone and the
original. -/
theorem c6_witness :
    (c6Orig.extraRef < c6Heap.nextRef ∧
      (cloneAllForMatch c6Heap c6Orig [cEntry, cEntry2]).1[0]? = some { extraRef := 1 } ∧
      (cloneAllForMatch c6Heap c6Orig [cEntry, cEntry2]).1[1]? = some { extraRef := 2 }) ∧
    ((heapWrite (cloneAllForMatch c6Heap c6Orig [cEntry, cEntry2]).2
        (RefCtx.extraRef { extraRef := 1 }) c6Write).cells
          (RefCtx.extraRef { extraRef := 2 }) =
      (cloneAllForMatch c6Heap c6Orig [cEntry, cEntry2]).2.cells
        (RefCtx.extraRef { extraRef := 2 }) ∧
    (heapWrite (cloneAllForMatch c6Heap c6Orig [cEntry, cEntry2]).2
        (RefCtx.extraRef { extraRef := 1 }) c6Write).cells c6Orig.extraRef =
      (cloneAllForMatch c6Heap c6Orig [cEntry, cEntry2]).2.cells c6Orig.extraRef) :=
  ⟨⟨by decide, by decide, by decide⟩,
    c6_clone_independence c6Heap c6Orig [cEntry, cEntry2] (by decide) 0 1
      { extraRef := 1 } { extraRef := 2 } c6Write (by decide) (by decide) (by decide)⟩

end ZoweChat
